import Mathlib

/-!
Shallow embedding of `src/graphql/client.go` from the go-twitch repository.

The GraphQL transport (`client.graphql`, an external library) is modelled as a
function from a `Call` (kind, query descriptor, variable mapping) to the pair
of the decoded payload written into the query struct and the returned error.
Each client operation is embedded as a Lean function that additionally reports
the list of transport calls it performed, so that "performs zero transport
calls" and "identical transport call" are directly statable.  The nil-pointer
dereference that `GetModsForUser`/`GetVIPsForUser` can perform is modelled by
an `Except GoPanic` outcome.
-/

namespace GoTwitch

/-- Value of the Go interface type `graphql.ID`, as used for `User.ID` and
`Channel.ID` in `client.go`: `none` models a nil interface value, `some s` a
string identifier. -/
abbrev GID := Option String

/-- Models the Go standard-library call `fmt.Sprint` applied to a `GID`:
a nil interface prints as `"<nil>"`, a string value prints as itself. -/
def gidSprint : GID → String
  | none => "<nil>"
  | some s => s

/-- The guard `user.ID == nil || len(fmt.Sprint(user.ID)) < 1` repeated in the
followers, mods and VIPs operations of `client.go`. -/
abbrev idEmpty (g : GID) : Prop := g = none ∨ (gidSprint g).length < 1

/-- A Go slice: `none` is the nil slice, `some l` a non-nil slice holding `l`. -/
abbrev GoSlice (α : Type) := Option (List α)

/-- Modelled from the spec: the domain entity `User` (its declaration is not
under `src/`); only its `ID` field is touched by `client.go`. -/
structure User where
  ID : GID
deriving DecidableEq

/-- Modelled from the spec: the domain entity `Channel` (its declaration is not
under `src/`); only its `ID` field is touched by `client.go`. -/
structure Channel where
  ID : GID
deriving DecidableEq

/-- Modelled from the spec: opaque page-result wrapper for streams; its fields
are never inspected by `client.go`, so its content is an opaque tag. -/
structure StreamsQuery where
  tag : Nat
deriving DecidableEq

/-- Modelled from the spec: opaque page-result wrapper for videos. -/
structure VideosQuery where
  tag : Nat
deriving DecidableEq

/-- Modelled from the spec: opaque page-result wrapper for games. -/
structure GamesQuery where
  tag : Nat
deriving DecidableEq

/-- Modelled from the spec: opaque page-result wrapper for followers. -/
structure FollowersQuery where
  tag : Nat
deriving DecidableEq

/-- Modelled from the spec: opaque page-result wrapper for moderators. -/
structure ModsQuery where
  tag : Nat
deriving DecidableEq

/-- Modelled from the spec: opaque page-result wrapper for VIPs. -/
structure VIPsQuery where
  tag : Nat
deriving DecidableEq

/-- Modelled from the spec: opaque clip record. -/
structure Clip where
  tag : Nat
deriving DecidableEq

/-- Modelled from the spec: outer payload of the user-videos query; `Videos`
is the nested connection accessed as `query.Data.Videos` in `client.go`. -/
structure UserVideosPayload where
  Videos : Option VideosQuery
deriving DecidableEq

/-- Modelled from the spec: outer payload of the followers query; `Followers`
is the nested connection accessed as `query.Data.Followers`. -/
structure FollowersPayload where
  Followers : Option FollowersQuery
deriving DecidableEq

/-- Modelled from the spec: outer payload of the mods query; `Mods` is the
nested connection accessed as `query.Data.Mods`. -/
structure ModsPayload where
  Mods : Option ModsQuery
deriving DecidableEq

/-- Modelled from the spec: outer payload of the VIPs query; `VIPs` is the
nested connection accessed as `query.Data.VIPs`. -/
structure VIPsPayload where
  VIPs : Option VIPsQuery
deriving DecidableEq

/-- Modelled from the spec: opaque stream filter options (`opts.Options`). -/
structure StreamQueryOptions where
  tag : Nat
deriving DecidableEq

/-- Modelled from the spec: opaque game filter options (`opts.Options`). -/
structure GameQueryOptions where
  tag : Nat
deriving DecidableEq

/-- Modelled from the spec: options for `GetStreams` with the fields
`client.go` reads (`First`, `After`, `Options`). -/
structure StreamQueryOpts where
  First : Int
  After : String
  Options : StreamQueryOptions
deriving DecidableEq

/-- Modelled from the spec: options for `GetVideos`/`GetVideosByUser`. -/
structure VideoQueryOpts where
  First : Int
  After : String
deriving DecidableEq

/-- Modelled from the spec: options for `GetGames`. -/
structure GameQueryOpts where
  First : Int
  After : String
  Options : GameQueryOptions
deriving DecidableEq

/-- Modelled from the spec: options for the followers operations. -/
structure FollowQueryOpts where
  First : Int
  After : String
deriving DecidableEq

/-- Modelled from the spec: options for the mods operations. -/
structure ModsQueryOpts where
  First : Int
  After : String
deriving DecidableEq

/-- Modelled from the spec: options for the VIPs operations. -/
structure VIPsQueryOpts where
  First : Int
  After : String
deriving DecidableEq

/-- Go `error` values observable at this layer: the three sentinel validation
errors of the package plus arbitrary transport-produced errors. -/
inductive GoError where
  | errTokenNotSet
  | errTooManyArguments
  | errInvalidArgument
  | other (msg : String)
deriving DecidableEq

/-- The query descriptor (`GQL*Query` struct) handed to the transport. -/
inductive QueryName where
  | usernameAvailability
  | currentUser
  | userIDs
  | userLogins
  | channelIDs
  | channelNames
  | streams
  | videos
  | userVideos
  | clip
  | games
  | followers
  | mods
  | vips
deriving DecidableEq

/-- Whether the transport primitive invoked is `Query` or `Mutate`. -/
inductive CallKind where
  | query
  | mutation
deriving DecidableEq

/-- A value placed in the GraphQL variable mapping.  The constructors keep the
Go dynamic types apart: `int` for `graphql.Int`, `str` for a plain string
(`opts.After`, `slug`), `gstr` for `graphql.String`, `gid` for an ID interface
value placed verbatim, `ids`/`strings` for the marshalled identifier lists, and
the two opaque filter-option values. -/
inductive GVal where
  | int (n : Int)
  | str (s : String)
  | gstr (s : String)
  | gid (g : GID)
  | ids (l : List String)
  | strings (l : List String)
  | streamOpts (o : StreamQueryOptions)
  | gameOpts (o : GameQueryOptions)
deriving DecidableEq

/-- A GraphQL variable mapping, in the literal order of the Go map literal. -/
abbrev Vars := List (String × GVal)

/-- Lookup of a key in a variable mapping. -/
def lookupVar (k : String) : Vars → Option GVal
  | [] => none
  | (k2, v) :: rest => if k = k2 then some v else lookupVar k rest

/-- One call delegated to the GraphQL transport. -/
structure Call where
  kind : CallKind
  name : QueryName
  vars : Vars
deriving DecidableEq

/-- The external GraphQL transport for a query decoding into payload `δ`:
given a call it writes a decoded payload and returns an error value. -/
abbrev Transport (δ : Type) := Call → δ × Option GoError

/-- Result of an operation that cannot panic: the transport calls performed,
the returned value and the returned error. -/
structure OpResult (α : Type) where
  calls : List Call
  value : α
  error : Option GoError
deriving DecidableEq

/-- A Go runtime panic observable in this layer. -/
inductive GoPanic where
  | nilDereference
deriving DecidableEq

/-- Result of an operation that may dereference a nil payload: the transport
calls performed, then either a panic or the returned (value, error) pair. -/
structure PanickyResult (α : Type) where
  calls : List Call
  outcome : Except GoPanic (α × Option GoError)

/-- Conversion of a Go `int` to `graphql.Int` (an `int32`): two's-complement
truncation to 32 bits. -/
def int32wrap (n : Int) : Int := (n + 2 ^ 31) % 2 ^ 32 - 2 ^ 31

/-- The `Client` struct of `client.go`; the `graphql` field is the injected
transport, which the embedding passes as an explicit argument instead. -/
structure Client where
  ID : String
  bearer : String
deriving DecidableEq

/-- `SetBearer` sets the token sent with GraphQL requests (`client.go:33`). -/
def SetBearer (client : Client) (token : String) : Client :=
  { client with bearer := token }

/-- `CustomQuery` executes a query on the GraphQL server (`client.go:40`):
it delegates to the transport and returns its decoded data and error
unchanged. -/
def CustomQuery {δ : Type} (tr : Transport δ) (q : QueryName) (vars : Vars) :
    δ × Option GoError :=
  tr ⟨CallKind.query, q, vars⟩

/-- `CustomMutation` executes a mutation on the GraphQL server
(`client.go:47`). -/
def CustomMutation {δ : Type} (tr : Transport δ) (q : QueryName) (vars : Vars) :
    δ × Option GoError :=
  tr ⟨CallKind.mutation, q, vars⟩

/-- `IsUsernameAvailable` (`client.go:52`): one query with the username as a
`graphql.String` variable; returns the decoded boolean and the error. -/
def IsUsernameAvailable (tr : Transport Bool) (client : Client)
    (username : String) : OpResult Bool :=
  let vars : Vars := [("username", GVal.gstr username)]
  let de := CustomQuery tr QueryName.usernameAvailability vars
  ⟨[⟨CallKind.query, QueryName.usernameAvailability, vars⟩], de.1, de.2⟩

/-- `GetCurrentUser` (`client.go:60`): fails with `ErrTokenNotSet` before any
transport call when the bearer token is empty. -/
def GetCurrentUser (tr : Transport (Option User)) (client : Client) :
    OpResult (Option User) :=
  if client.bearer.length < 1 then
    ⟨[], none, some GoError.errTokenNotSet⟩
  else
    let de := CustomQuery tr QueryName.currentUser []
    ⟨[⟨CallKind.query, QueryName.currentUser, []⟩], de.1, de.2⟩

/-- Modelled from the spec: the marshalling helper `toIDs` (not under `src/`)
turning a variadic string list into an ID-typed list variable. -/
def toIDs (l : List String) : GVal := GVal.ids l

/-- Modelled from the spec: the marshalling helper `toStrings` (not under
`src/`) turning a variadic string list into a string-typed list variable. -/
def toStrings (l : List String) : GVal := GVal.strings l

/-- `GetUsersByID` (`client.go:70`): rejects more than 100 IDs with
`ErrTooManyArguments` and an empty non-nil slice, before any transport call. -/
def GetUsersByID (tr : Transport (GoSlice User)) (client : Client)
    (ids : List String) : OpResult (GoSlice User) :=
  if ids.length > 100 then
    ⟨[], some [], some GoError.errTooManyArguments⟩
  else
    let vars : Vars := [("ids", toIDs ids)]
    let de := CustomQuery tr QueryName.userIDs vars
    ⟨[⟨CallKind.query, QueryName.userIDs, vars⟩], de.1, de.2⟩

/-- `GetUsersByLogin` (`client.go:81`). -/
def GetUsersByLogin (tr : Transport (GoSlice User)) (client : Client)
    (logins : List String) : OpResult (GoSlice User) :=
  if logins.length > 100 then
    ⟨[], some [], some GoError.errTooManyArguments⟩
  else
    let vars : Vars := [("logins", toStrings logins)]
    let de := CustomQuery tr QueryName.userLogins vars
    ⟨[⟨CallKind.query, QueryName.userLogins, vars⟩], de.1, de.2⟩

/-- `GetChannelsByID` (`client.go:92`). -/
def GetChannelsByID (tr : Transport (GoSlice Channel)) (client : Client)
    (ids : List String) : OpResult (GoSlice Channel) :=
  if ids.length > 100 then
    ⟨[], some [], some GoError.errTooManyArguments⟩
  else
    let vars : Vars := [("ids", toIDs ids)]
    let de := CustomQuery tr QueryName.channelIDs vars
    ⟨[⟨CallKind.query, QueryName.channelIDs, vars⟩], de.1, de.2⟩

/-- `GetChannelsByName` (`client.go:103`). -/
def GetChannelsByName (tr : Transport (GoSlice Channel)) (client : Client)
    (names : List String) : OpResult (GoSlice Channel) :=
  if names.length > 100 then
    ⟨[], some [], some GoError.errTooManyArguments⟩
  else
    let vars : Vars := [("names", toStrings names)]
    let de := CustomQuery tr QueryName.channelNames vars
    ⟨[⟨CallKind.query, QueryName.channelNames, vars⟩], de.1, de.2⟩

/-- `GetStreams` (`client.go:114`): clamps `opts.First` to 25 when outside
`[1,100]`, then queries with `first`, `after` and `options` variables. -/
def GetStreams (tr : Transport (Option StreamsQuery)) (client : Client)
    (opts : StreamQueryOpts) : OpResult (Option StreamsQuery) :=
  let first := if opts.First < 1 ∨ opts.First > 100 then 25 else opts.First
  let vars : Vars := [("first", GVal.int (int32wrap first)),
    ("after", GVal.str opts.After), ("options", GVal.streamOpts opts.Options)]
  let de := CustomQuery tr QueryName.streams vars
  ⟨[⟨CallKind.query, QueryName.streams, vars⟩], de.1, de.2⟩

/-- `GetVideos` (`client.go:129`). -/
def GetVideos (tr : Transport (Option VideosQuery)) (client : Client)
    (opts : VideoQueryOpts) : OpResult (Option VideosQuery) :=
  let first := if opts.First < 1 ∨ opts.First > 100 then 25 else opts.First
  let vars : Vars := [("first", GVal.int (int32wrap first)),
    ("after", GVal.str opts.After)]
  let de := CustomQuery tr QueryName.videos vars
  ⟨[⟨CallKind.query, QueryName.videos, vars⟩], de.1, de.2⟩

/-- `GetVideosByUser` (`client.go:148`): no subject-ID validation; returns
`nil` and the error when the outer payload is nil, otherwise unwraps the
nested `Videos` connection. -/
def GetVideosByUser (tr : Transport (Option UserVideosPayload))
    (client : Client) (user : User) (opts : VideoQueryOpts) :
    OpResult (Option VideosQuery) :=
  let first := if opts.First < 1 ∨ opts.First > 100 then 25 else opts.First
  let vars : Vars := [("id", GVal.gid user.ID),
    ("first", GVal.int (int32wrap first)), ("after", GVal.str opts.After)]
  let de := CustomQuery tr QueryName.userVideos vars
  match de.1 with
  | none => ⟨[⟨CallKind.query, QueryName.userVideos, vars⟩], none, de.2⟩
  | some payload =>
    ⟨[⟨CallKind.query, QueryName.userVideos, vars⟩], payload.Videos, de.2⟩

/-- `GetVideosByChannel` (`client.go:143`): delegates to `GetVideosByUser`
with a `User` built from the channel ID. -/
def GetVideosByChannel (tr : Transport (Option UserVideosPayload))
    (client : Client) (channel : Channel) (opts : VideoQueryOpts) :
    OpResult (Option VideosQuery) :=
  GetVideosByUser tr client ⟨channel.ID⟩ opts

/-- `GetClipBySlug` (`client.go:166`). -/
def GetClipBySlug (tr : Transport (Option Clip)) (client : Client)
    (slug : String) : OpResult (Option Clip) :=
  let vars : Vars := [("slug", GVal.str slug)]
  let de := CustomQuery tr QueryName.clip vars
  ⟨[⟨CallKind.query, QueryName.clip, vars⟩], de.1, de.2⟩

/-- `GetGames` (`client.go:174`). -/
def GetGames (tr : Transport (Option GamesQuery)) (client : Client)
    (opts : GameQueryOpts) : OpResult (Option GamesQuery) :=
  let first := if opts.First < 1 ∨ opts.First > 100 then 25 else opts.First
  let vars : Vars := [("first", GVal.int (int32wrap first)),
    ("after", GVal.str opts.After), ("options", GVal.gameOpts opts.Options)]
  let de := CustomQuery tr QueryName.games vars
  ⟨[⟨CallKind.query, QueryName.games, vars⟩], de.1, de.2⟩

/-- `GetFollowersForUser` (`client.go:189`): validates the subject ID, clamps
`first`, and nil-checks the outer payload before unwrapping `Followers`. -/
def GetFollowersForUser (tr : Transport (Option FollowersPayload))
    (client : Client) (user : User) (opts : FollowQueryOpts) :
    OpResult (Option FollowersQuery) :=
  if idEmpty user.ID then
    ⟨[], none, some GoError.errInvalidArgument⟩
  else
    let first := if opts.First < 1 ∨ opts.First > 100 then 25 else opts.First
    let vars : Vars := [("id", GVal.gid user.ID),
      ("first", GVal.int (int32wrap first)), ("after", GVal.str opts.After)]
    let de := CustomQuery tr QueryName.followers vars
    match de.1 with
    | none => ⟨[⟨CallKind.query, QueryName.followers, vars⟩], none, de.2⟩
    | some payload =>
      ⟨[⟨CallKind.query, QueryName.followers, vars⟩], payload.Followers, de.2⟩

/-- `GetFollowersForChannel` (`client.go:210`): same body as
`GetFollowersForUser` but scoped by the channel ID (duplicated in the
source, not delegated). -/
def GetFollowersForChannel (tr : Transport (Option FollowersPayload))
    (client : Client) (channel : Channel) (opts : FollowQueryOpts) :
    OpResult (Option FollowersQuery) :=
  if idEmpty channel.ID then
    ⟨[], none, some GoError.errInvalidArgument⟩
  else
    let first := if opts.First < 1 ∨ opts.First > 100 then 25 else opts.First
    let vars : Vars := [("id", GVal.gid channel.ID),
      ("first", GVal.int (int32wrap first)), ("after", GVal.str opts.After)]
    let de := CustomQuery tr QueryName.followers vars
    match de.1 with
    | none => ⟨[⟨CallKind.query, QueryName.followers, vars⟩], none, de.2⟩
    | some payload =>
      ⟨[⟨CallKind.query, QueryName.followers, vars⟩], payload.Followers, de.2⟩

/-- `GetModsForUser` (`client.go:241`): validates the subject ID and clamps
`first`, but reads `query.Data.Mods` unconditionally after the call — a nil
outer payload makes the dereference panic. -/
def GetModsForUser (tr : Transport (Option ModsPayload)) (client : Client)
    (user : User) (opts : ModsQueryOpts) : PanickyResult (Option ModsQuery) :=
  if idEmpty user.ID then
    ⟨[], Except.ok (none, some GoError.errInvalidArgument)⟩
  else
    let first := if opts.First < 1 ∨ opts.First > 100 then 25 else opts.First
    let vars : Vars := [("id", GVal.gid user.ID),
      ("first", GVal.int (int32wrap first)), ("after", GVal.str opts.After)]
    let de := CustomQuery tr QueryName.mods vars
    match de.1 with
    | none => ⟨[⟨CallKind.query, QueryName.mods, vars⟩],
        Except.error GoPanic.nilDereference⟩
    | some payload => ⟨[⟨CallKind.query, QueryName.mods, vars⟩],
        Except.ok (payload.Mods, de.2)⟩

/-- `GetVIPsForUser` (`client.go:259`): same shape as `GetModsForUser`, with
the unconditional `query.Data.VIPs` read. -/
def GetVIPsForUser (tr : Transport (Option VIPsPayload)) (client : Client)
    (user : User) (opts : VIPsQueryOpts) : PanickyResult (Option VIPsQuery) :=
  if idEmpty user.ID then
    ⟨[], Except.ok (none, some GoError.errInvalidArgument)⟩
  else
    let first := if opts.First < 1 ∨ opts.First > 100 then 25 else opts.First
    let vars : Vars := [("id", GVal.gid user.ID),
      ("first", GVal.int (int32wrap first)), ("after", GVal.str opts.After)]
    let de := CustomQuery tr QueryName.vips vars
    match de.1 with
    | none => ⟨[⟨CallKind.query, QueryName.vips, vars⟩],
        Except.error GoPanic.nilDereference⟩
    | some payload => ⟨[⟨CallKind.query, QueryName.vips, vars⟩],
        Except.ok (payload.VIPs, de.2)⟩

/-- `GetModsForChannel` (`client.go:231`): delegates to `GetModsForUser`. -/
def GetModsForChannel (tr : Transport (Option ModsPayload)) (client : Client)
    (channel : Channel) (opts : ModsQueryOpts) :
    PanickyResult (Option ModsQuery) :=
  GetModsForUser tr client ⟨channel.ID⟩ opts

/-- `GetVIPsForChannel` (`client.go:236`): delegates to `GetVIPsForUser`. -/
def GetVIPsForChannel (tr : Transport (Option VIPsPayload)) (client : Client)
    (channel : Channel) (opts : VIPsQueryOpts) :
    PanickyResult (Option VIPsQuery) :=
  GetVIPsForUser tr client ⟨channel.ID⟩ opts

/-- The `first` variable of the single transport call of a result, when the
operation made exactly one call. -/
def firstOf {α : Type} (r : OpResult α) : Option GVal :=
  match r.calls with
  | [call] => lookupVar "first" call.vars
  | _ => none

/-- The `first` variable of the single transport call of a panicky result. -/
def firstOfP {α : Type} (r : PanickyResult α) : Option GVal :=
  match r.calls with
  | [call] => lookupVar "first" call.vars
  | _ => none

/-- The `id` variable of the single transport call of a result. -/
def idVarOf {α : Type} (r : OpResult α) : Option GVal :=
  match r.calls with
  | [call] => lookupVar "id" call.vars
  | _ => none

/-- The `id` variable of the single transport call of a panicky result. -/
def idVarOfP {α : Type} (r : PanickyResult α) : Option GVal :=
  match r.calls with
  | [call] => lookupVar "id" call.vars
  | _ => none

/-- The clamped page size the spec describes: 25 outside `[1,100]`, the
given value inside. -/
def effFirst (n : Int) : Int := if n < 1 ∨ n > 100 then 25 else n

/-- The `int32` truncation performed by `graphql.Int(opts.First)` is the
identity on the clamped page size, which always lies in `[1,100]`. -/
theorem int32wrap_clamp (n : Int) :
    int32wrap (if n < 1 ∨ n > 100 then 25 else n) = effFirst n := by
  unfold int32wrap effFirst
  split <;> omega

/-- C1: for every paginated-listing operation (GetStreams, GetVideos,
GetGames, GetVideosByUser, GetFollowersForUser, GetFollowersForChannel,
GetModsForUser, GetVIPsForUser) the `first` variable placed in the
transport's variable mapping is exactly 25 when `opts.First` lies outside
`[1,100]` and exactly `opts.First` when it lies inside, `effFirst` being by
definition that clamp. -/
theorem c1_first_clamped
    (t1 : Transport (Option StreamsQuery)) (t2 : Transport (Option VideosQuery))
    (t3 : Transport (Option GamesQuery))
    (t4 : Transport (Option UserVideosPayload))
    (t5 t6 : Transport (Option FollowersPayload))
    (t7 : Transport (Option ModsPayload)) (t8 : Transport (Option VIPsPayload))
    (c : Client) (u : User) (ch : Channel)
    (hu : ¬ idEmpty u.ID) (hch : ¬ idEmpty ch.ID)
    (first : Int) (after : String) (so : StreamQueryOptions)
    (go : GameQueryOptions) :
    firstOf (GetStreams t1 c ⟨first, after, so⟩)
        = some (GVal.int (effFirst first)) ∧
    firstOf (GetVideos t2 c ⟨first, after⟩)
        = some (GVal.int (effFirst first)) ∧
    firstOf (GetGames t3 c ⟨first, after, go⟩)
        = some (GVal.int (effFirst first)) ∧
    firstOf (GetVideosByUser t4 c u ⟨first, after⟩)
        = some (GVal.int (effFirst first)) ∧
    firstOf (GetFollowersForUser t5 c u ⟨first, after⟩)
        = some (GVal.int (effFirst first)) ∧
    firstOf (GetFollowersForChannel t6 c ch ⟨first, after⟩)
        = some (GVal.int (effFirst first)) ∧
    firstOfP (GetModsForUser t7 c u ⟨first, after⟩)
        = some (GVal.int (effFirst first)) ∧
    firstOfP (GetVIPsForUser t8 c u ⟨first, after⟩)
        = some (GVal.int (effFirst first)) := by
  refine ⟨?_, ?_, ?_, ?_, ?_, ?_, ?_, ?_⟩
  · simp [GetStreams, firstOf, CustomQuery, lookupVar, int32wrap_clamp]
  · simp [GetVideos, firstOf, CustomQuery, lookupVar, int32wrap_clamp]
  · simp [GetGames, firstOf, CustomQuery, lookupVar, int32wrap_clamp]
  · simp only [GetVideosByUser, CustomQuery]
    split <;> simp [firstOf, lookupVar, int32wrap_clamp]
  · simp only [GetFollowersForUser, CustomQuery, hu, if_false]
    split <;> simp [firstOf, lookupVar, int32wrap_clamp]
  · simp only [GetFollowersForChannel, CustomQuery, hch, if_false]
    split <;> simp [firstOf, lookupVar, int32wrap_clamp]
  · simp only [GetModsForUser, CustomQuery, hu, if_false]
    split <;> simp [firstOfP, lookupVar, int32wrap_clamp]
  · simp only [GetVIPsForUser, CustomQuery, hu, if_false]
    split <;> simp [firstOfP, lookupVar, int32wrap_clamp]

/-- Concrete instance of `c1_first_clamped` at `opts.First = 0`, where the
clamp produces 25. -/
theorem c1_first_clamped_witness :
    firstOf (GetStreams (fun _ => (none, none)) ⟨"", ""⟩ ⟨0, "", ⟨0⟩⟩)
        = some (GVal.int (effFirst 0)) ∧
    firstOf (GetVideos (fun _ => (none, none)) ⟨"", ""⟩ ⟨0, ""⟩)
        = some (GVal.int (effFirst 0)) ∧
    firstOf (GetGames (fun _ => (none, none)) ⟨"", ""⟩ ⟨0, "", ⟨0⟩⟩)
        = some (GVal.int (effFirst 0)) ∧
    firstOf (GetVideosByUser (fun _ => (none, none)) ⟨"", ""⟩ ⟨some "1"⟩
        ⟨0, ""⟩) = some (GVal.int (effFirst 0)) ∧
    firstOf (GetFollowersForUser (fun _ => (none, none)) ⟨"", ""⟩ ⟨some "1"⟩
        ⟨0, ""⟩) = some (GVal.int (effFirst 0)) ∧
    firstOf (GetFollowersForChannel (fun _ => (none, none)) ⟨"", ""⟩
        ⟨some "2"⟩ ⟨0, ""⟩) = some (GVal.int (effFirst 0)) ∧
    firstOfP (GetModsForUser (fun _ => (none, none)) ⟨"", ""⟩ ⟨some "1"⟩
        ⟨0, ""⟩) = some (GVal.int (effFirst 0)) ∧
    firstOfP (GetVIPsForUser (fun _ => (none, none)) ⟨"", ""⟩ ⟨some "1"⟩
        ⟨0, ""⟩) = some (GVal.int (effFirst 0)) :=
  c1_first_clamped _ _ _ _ _ _ _ _ ⟨"", ""⟩ ⟨some "1"⟩ ⟨some "2"⟩
    (by decide) (by decide) 0 "" ⟨0⟩ ⟨0⟩

/-- C2: each of the four bulk-lookup operations returns
`ErrTooManyArguments` with zero transport calls on a list longer than 100,
and for a list of at most 100 identifiers marshals them into the variable
mapping and makes exactly one transport call. -/
theorem c2_bulk_limit
    (t1 t2 : Transport (GoSlice User)) (t3 t4 : Transport (GoSlice Channel))
    (c : Client) (l1 l2 l3 l4 : List String) :
    (l1.length > 100 →
      GetUsersByID t1 c l1 = ⟨[], some [], some GoError.errTooManyArguments⟩) ∧
    (l1.length ≤ 100 → (GetUsersByID t1 c l1).calls
      = [⟨CallKind.query, QueryName.userIDs, [("ids", toIDs l1)]⟩]) ∧
    (l2.length > 100 →
      GetUsersByLogin t2 c l2
        = ⟨[], some [], some GoError.errTooManyArguments⟩) ∧
    (l2.length ≤ 100 → (GetUsersByLogin t2 c l2).calls
      = [⟨CallKind.query, QueryName.userLogins, [("logins", toStrings l2)]⟩]) ∧
    (l3.length > 100 →
      GetChannelsByID t3 c l3
        = ⟨[], some [], some GoError.errTooManyArguments⟩) ∧
    (l3.length ≤ 100 → (GetChannelsByID t3 c l3).calls
      = [⟨CallKind.query, QueryName.channelIDs, [("ids", toIDs l3)]⟩]) ∧
    (l4.length > 100 →
      GetChannelsByName t4 c l4
        = ⟨[], some [], some GoError.errTooManyArguments⟩) ∧
    (l4.length ≤ 100 → (GetChannelsByName t4 c l4).calls
      = [⟨CallKind.query, QueryName.channelNames, [("names", toStrings l4)]⟩]) := by
  refine ⟨fun h => ?_, fun h => ?_, fun h => ?_, fun h => ?_, fun h => ?_,
    fun h => ?_, fun h => ?_, fun h => ?_⟩ <;>
    simp [GetUsersByID, GetUsersByLogin, GetChannelsByID, GetChannelsByName,
      CustomQuery, h, Nat.not_lt.mpr h]

/-- Concrete instance of `c2_bulk_limit`: 101 identifiers are rejected, one
identifier is marshalled and sent. -/
theorem c2_bulk_limit_witness :
    GetUsersByID (fun _ => (none, none)) ⟨"", ""⟩ (List.replicate 101 "x")
      = ⟨[], some [], some GoError.errTooManyArguments⟩ ∧
    (GetUsersByLogin (fun _ => (none, none)) ⟨"", ""⟩ ["a"]).calls
      = [⟨CallKind.query, QueryName.userLogins, [("logins", toStrings ["a"])]⟩] ∧
    GetChannelsByID (fun _ => (none, none)) ⟨"", ""⟩ (List.replicate 101 "x")
      = ⟨[], some [], some GoError.errTooManyArguments⟩ ∧
    (GetChannelsByName (fun _ => (none, none)) ⟨"", ""⟩ ["a"]).calls
      = [⟨CallKind.query, QueryName.channelNames, [("names", toStrings ["a"])]⟩] :=
  ⟨(c2_bulk_limit (fun _ => (none, none)) (fun _ => (none, none))
      (fun _ => (none, none)) (fun _ => (none, none)) ⟨"", ""⟩
      (List.replicate 101 "x") ["a"] (List.replicate 101 "x") ["a"]).1
      (by simp),
   (c2_bulk_limit (fun _ => (none, none)) (fun _ => (none, none))
      (fun _ => (none, none)) (fun _ => (none, none)) ⟨"", ""⟩
      (List.replicate 101 "x") ["a"] (List.replicate 101 "x") ["a"]).2.2.2.1
      (by simp),
   (c2_bulk_limit (fun _ => (none, none)) (fun _ => (none, none))
      (fun _ => (none, none)) (fun _ => (none, none)) ⟨"", ""⟩
      (List.replicate 101 "x") ["a"] (List.replicate 101 "x") ["a"]).2.2.2.2.1
      (by simp),
   (c2_bulk_limit (fun _ => (none, none)) (fun _ => (none, none))
      (fun _ => (none, none)) (fun _ => (none, none)) ⟨"", ""⟩
      (List.replicate 101 "x") ["a"] (List.replicate 101 "x") ["a"]).2.2.2.2.2.2.2
      (by simp)⟩

/-- C3: `GetCurrentUser` on a client with an empty bearer token returns
`ErrTokenNotSet` with zero transport calls; `SetBearer` stores any string
unvalidated; after `SetBearer` with a non-empty token the same call reaches
the transport; `SetBearer ""` restores the failing unauthenticated state. -/
theorem c3_bearer_guard (tr : Transport (Option User)) (c : Client)
    (tok s : String) (htok : tok ≠ "") :
    (c.bearer = "" →
      GetCurrentUser tr c = ⟨[], none, some GoError.errTokenNotSet⟩) ∧
    (SetBearer c s).bearer = s ∧
    (GetCurrentUser tr (SetBearer c tok)).calls
      = [⟨CallKind.query, QueryName.currentUser, []⟩] ∧
    GetCurrentUser tr (SetBearer c "")
      = ⟨[], none, some GoError.errTokenNotSet⟩ := by
  have hlen : ¬ (SetBearer c tok).bearer.length < 1 := by
    obtain ⟨data⟩ := tok
    cases data with
    | nil => exact absurd rfl htok
    | cons a l => simp [SetBearer, String.length]
  refine ⟨fun h => ?_, rfl, ?_, ?_⟩
  · simp [GetCurrentUser, h]
  · simp [GetCurrentUser, hlen, CustomQuery]
  · simp [GetCurrentUser, SetBearer]

/-- Concrete instance of `c3_bearer_guard` with bearer token `"x"`. -/
theorem c3_bearer_guard_witness :
    GetCurrentUser (fun _ => (none, none)) ⟨"", ""⟩
      = ⟨[], none, some GoError.errTokenNotSet⟩ ∧
    (SetBearer ⟨"", ""⟩ "y").bearer = "y" ∧
    (GetCurrentUser (fun _ => (none, none)) (SetBearer ⟨"", ""⟩ "x")).calls
      = [⟨CallKind.query, QueryName.currentUser, []⟩] ∧
    GetCurrentUser (fun _ => (none, none)) (SetBearer ⟨"", ""⟩ "")
      = ⟨[], none, some GoError.errTokenNotSet⟩ :=
  ⟨(c3_bearer_guard (fun _ => (none, none)) ⟨"", ""⟩ "x" "y" (by decide)).1
      rfl,
   (c3_bearer_guard (fun _ => (none, none)) ⟨"", ""⟩ "x" "y" (by decide)).2.1,
   (c3_bearer_guard (fun _ => (none, none)) ⟨"", ""⟩ "x" "y" (by decide)).2.2.1,
   (c3_bearer_guard (fun _ => (none, none)) ⟨"", ""⟩ "x" "y" (by decide)).2.2.2⟩

/-- C4: the three user-scoped relationship operations return
`ErrInvalidArgument` with zero transport calls when the user ID is nil or
stringifies to an empty value, and forward the ID verbatim as the `id`
variable otherwise. -/
theorem c4_id_guard (tf : Transport (Option FollowersPayload))
    (tm : Transport (Option ModsPayload)) (tv : Transport (Option VIPsPayload))
    (c : Client) (u : User) (fo : FollowQueryOpts) (mo : ModsQueryOpts)
    (vo : VIPsQueryOpts) :
    (idEmpty u.ID →
      GetFollowersForUser tf c u fo
        = ⟨[], none, some GoError.errInvalidArgument⟩ ∧
      (GetModsForUser tm c u mo).calls = [] ∧
      (GetModsForUser tm c u mo).outcome
        = Except.ok (none, some GoError.errInvalidArgument) ∧
      (GetVIPsForUser tv c u vo).calls = [] ∧
      (GetVIPsForUser tv c u vo).outcome
        = Except.ok (none, some GoError.errInvalidArgument)) ∧
    (¬ idEmpty u.ID →
      idVarOf (GetFollowersForUser tf c u fo) = some (GVal.gid u.ID) ∧
      idVarOfP (GetModsForUser tm c u mo) = some (GVal.gid u.ID) ∧
      idVarOfP (GetVIPsForUser tv c u vo) = some (GVal.gid u.ID)) := by
  constructor
  · intro h
    refine ⟨?_, ?_, ?_, ?_, ?_⟩ <;>
      simp [GetFollowersForUser, GetModsForUser, GetVIPsForUser, h]
  · intro h
    refine ⟨?_, ?_, ?_⟩
    · simp only [GetFollowersForUser, CustomQuery, h, if_false]
      split <;> simp [idVarOf, lookupVar]
    · simp only [GetModsForUser, CustomQuery, h, if_false]
      split <;> simp [idVarOfP, lookupVar]
    · simp only [GetVIPsForUser, CustomQuery, h, if_false]
      split <;> simp [idVarOfP, lookupVar]

/-- Concrete instances of `c4_id_guard`: a nil ID is rejected, the ID
`"7"` is forwarded verbatim. -/
theorem c4_id_guard_witness :
    (GetFollowersForUser (fun _ => (none, none)) ⟨"", ""⟩ ⟨none⟩ ⟨1, ""⟩
      = ⟨[], none, some GoError.errInvalidArgument⟩ ∧
     (GetModsForUser (fun _ => (none, none)) ⟨"", ""⟩ ⟨none⟩ ⟨1, ""⟩).calls
      = [] ∧
     (GetModsForUser (fun _ => (none, none)) ⟨"", ""⟩ ⟨none⟩ ⟨1, ""⟩).outcome
      = Except.ok (none, some GoError.errInvalidArgument) ∧
     (GetVIPsForUser (fun _ => (none, none)) ⟨"", ""⟩ ⟨none⟩ ⟨1, ""⟩).calls
      = [] ∧
     (GetVIPsForUser (fun _ => (none, none)) ⟨"", ""⟩ ⟨none⟩ ⟨1, ""⟩).outcome
      = Except.ok (none, some GoError.errInvalidArgument)) ∧
    (idVarOf (GetFollowersForUser (fun _ => (none, none)) ⟨"", ""⟩ ⟨some "7"⟩
        ⟨1, ""⟩) = some (GVal.gid (some "7")) ∧
     idVarOfP (GetModsForUser (fun _ => (none, none)) ⟨"", ""⟩ ⟨some "7"⟩
        ⟨1, ""⟩) = some (GVal.gid (some "7")) ∧
     idVarOfP (GetVIPsForUser (fun _ => (none, none)) ⟨"", ""⟩ ⟨some "7"⟩
        ⟨1, ""⟩) = some (GVal.gid (some "7"))) :=
  ⟨(c4_id_guard (fun _ => (none, none)) (fun _ => (none, none))
      (fun _ => (none, none)) ⟨"", ""⟩ ⟨none⟩ ⟨1, ""⟩ ⟨1, ""⟩ ⟨1, ""⟩).1
      (by decide),
   (c4_id_guard (fun _ => (none, none)) (fun _ => (none, none))
      (fun _ => (none, none)) ⟨"", ""⟩ ⟨some "7"⟩ ⟨1, ""⟩ ⟨1, ""⟩ ⟨1, ""⟩).2
      (by decide)⟩

/-- C5: each channel-scoped relationship operation agrees exactly (same
transport calls, same value, same error or panic) with the corresponding
user-scoped operation applied to a `User` built from the channel ID. -/
theorem c5_channel_delegation (tv : Transport (Option UserVideosPayload))
    (tm : Transport (Option ModsPayload)) (tvip : Transport (Option VIPsPayload))
    (tf : Transport (Option FollowersPayload)) (c : Client) (ch : Channel)
    (vo : VideoQueryOpts) (mo : ModsQueryOpts) (vio : VIPsQueryOpts)
    (fo : FollowQueryOpts) :
    GetVideosByChannel tv c ch vo = GetVideosByUser tv c ⟨ch.ID⟩ vo ∧
    GetModsForChannel tm c ch mo = GetModsForUser tm c ⟨ch.ID⟩ mo ∧
    GetVIPsForChannel tvip c ch vio = GetVIPsForUser tvip c ⟨ch.ID⟩ vio ∧
    GetFollowersForChannel tf c ch fo = GetFollowersForUser tf c ⟨ch.ID⟩ fo :=
  ⟨rfl, rfl, rfl, rfl⟩

/-- C6: for the three nil-checked nested-connection operations, a transport
that leaves the outer payload nil yields a nil result and the transport's
own error, with no panic possible (their result type has no panic case). -/
theorem c6_nil_payload (c : Client) (u : User) (ch : Channel)
    (vo : VideoQueryOpts) (fo fo2 : FollowQueryOpts) (e1 e2 e3 : Option GoError)
    (hu : ¬ idEmpty u.ID) (hch : ¬ idEmpty ch.ID) :
    (GetVideosByUser (fun _ => (none, e1)) c u vo).value = none ∧
    (GetVideosByUser (fun _ => (none, e1)) c u vo).error = e1 ∧
    (GetFollowersForUser (fun _ => (none, e2)) c u fo).value = none ∧
    (GetFollowersForUser (fun _ => (none, e2)) c u fo).error = e2 ∧
    (GetFollowersForChannel (fun _ => (none, e3)) c ch fo2).value = none ∧
    (GetFollowersForChannel (fun _ => (none, e3)) c ch fo2).error = e3 := by
  refine ⟨?_, ?_, ?_, ?_, ?_, ?_⟩ <;>
    simp [GetVideosByUser, GetFollowersForUser, GetFollowersForChannel,
      CustomQuery, hu, hch]

/-- Concrete instance of `c6_nil_payload` with a transport error value. -/
theorem c6_nil_payload_witness :
    (GetVideosByUser (fun _ => (none, some (GoError.other "boom"))) ⟨"", ""⟩
      ⟨some "1"⟩ ⟨1, ""⟩).value = none ∧
    (GetVideosByUser (fun _ => (none, some (GoError.other "boom"))) ⟨"", ""⟩
      ⟨some "1"⟩ ⟨1, ""⟩).error = some (GoError.other "boom") ∧
    (GetFollowersForUser (fun _ => (none, some (GoError.other "boom")))
      ⟨"", ""⟩ ⟨some "1"⟩ ⟨1, ""⟩).value = none ∧
    (GetFollowersForUser (fun _ => (none, some (GoError.other "boom")))
      ⟨"", ""⟩ ⟨some "1"⟩ ⟨1, ""⟩).error = some (GoError.other "boom") ∧
    (GetFollowersForChannel (fun _ => (none, some (GoError.other "boom")))
      ⟨"", ""⟩ ⟨some "2"⟩ ⟨1, ""⟩).value = none ∧
    (GetFollowersForChannel (fun _ => (none, some (GoError.other "boom")))
      ⟨"", ""⟩ ⟨some "2"⟩ ⟨1, ""⟩).error = some (GoError.other "boom") :=
  c6_nil_payload ⟨"", ""⟩ ⟨some "1"⟩ ⟨some "2"⟩ ⟨1, ""⟩ ⟨1, ""⟩ ⟨1, ""⟩
    (some (GoError.other "boom")) (some (GoError.other "boom"))
    (some (GoError.other "boom")) (by decide) (by decide)

/-- C7: in `GetModsForUser` and `GetVIPsForUser` the nested field of the
outer payload is read without a nil check: with a valid subject ID and a
transport that leaves the outer payload nil, the transport call is made and
the operation ends in the nil-dereference panic instead of returning. -/
theorem c7_mods_vips_deref (c : Client) (u : User) (mo : ModsQueryOpts)
    (vo : VIPsQueryOpts) (e1 e2 : Option GoError) (hu : ¬ idEmpty u.ID) :
    (GetModsForUser (fun _ => (none, e1)) c u mo).outcome
      = Except.error GoPanic.nilDereference ∧
    (GetModsForUser (fun _ => (none, e1)) c u mo).calls ≠ [] ∧
    (GetVIPsForUser (fun _ => (none, e2)) c u vo).outcome
      = Except.error GoPanic.nilDereference ∧
    (GetVIPsForUser (fun _ => (none, e2)) c u vo).calls ≠ [] := by
  refine ⟨?_, ?_, ?_, ?_⟩ <;>
    simp [GetModsForUser, GetVIPsForUser, CustomQuery, hu]

/-- Concrete instance of `c7_mods_vips_deref`: the panic is reached even
with a nil transport error. -/
theorem c7_mods_vips_deref_witness :
    (GetModsForUser (fun _ => (none, none)) ⟨"", ""⟩ ⟨some "1"⟩
      ⟨1, ""⟩).outcome = Except.error GoPanic.nilDereference ∧
    (GetModsForUser (fun _ => (none, none)) ⟨"", ""⟩ ⟨some "1"⟩
      ⟨1, ""⟩).calls ≠ [] ∧
    (GetVIPsForUser (fun _ => (none, none)) ⟨"", ""⟩ ⟨some "1"⟩
      ⟨1, ""⟩).outcome = Except.error GoPanic.nilDereference ∧
    (GetVIPsForUser (fun _ => (none, none)) ⟨"", ""⟩ ⟨some "1"⟩
      ⟨1, ""⟩).calls ≠ [] :=
  c7_mods_vips_deref ⟨"", ""⟩ ⟨some "1"⟩ ⟨1, ""⟩ ⟨1, ""⟩ none none (by decide)

/-- C8: `CustomQuery`/`CustomMutation` return the transport's error value
unchanged; every operation that reaches the transport surfaces that error
verbatim; and every validation error (`ErrTokenNotSet`,
`ErrTooManyArguments`, `ErrInvalidArgument`) is returned immediately with
zero transport calls. -/
theorem c8_error_propagation {δ : Type} (trd : Transport δ)
    (q : QueryName) (vs : Vars) (e : Option GoError)
    (b : Bool) (du : Option User) (dsu : GoSlice User) (dsc : GoSlice Channel)
    (dst : Option StreamsQuery) (dv : Option VideosQuery)
    (dg : Option GamesQuery) (dcl : Option Clip)
    (dup : Option UserVideosPayload) (dfp : Option FollowersPayload)
    (mp : ModsPayload) (vp : VIPsPayload)
    (ca cb : Client) (hca : ca.bearer = "") (hcb : ¬ cb.bearer.length < 1)
    (u1 u2 : User) (h1 : idEmpty u1.ID) (h2 : ¬ idEmpty u2.ID)
    (l1 l2 : List String) (hl1 : l1.length > 100) (hl2 : l2.length ≤ 100)
    (username slug : String)
    (so : StreamQueryOpts) (vo : VideoQueryOpts) (go : GameQueryOpts)
    (fo : FollowQueryOpts) (mo : ModsQueryOpts) (vio : VIPsQueryOpts) :
    (CustomQuery trd q vs).2 = (trd ⟨CallKind.query, q, vs⟩).2 ∧
    (CustomMutation trd q vs).2 = (trd ⟨CallKind.mutation, q, vs⟩).2 ∧
    (IsUsernameAvailable (fun _ => (b, e)) ca username).error = e ∧
    (GetCurrentUser (fun _ => (du, e)) cb).error = e ∧
    (GetUsersByID (fun _ => (dsu, e)) ca l2).error = e ∧
    (GetUsersByLogin (fun _ => (dsu, e)) ca l2).error = e ∧
    (GetChannelsByID (fun _ => (dsc, e)) ca l2).error = e ∧
    (GetChannelsByName (fun _ => (dsc, e)) ca l2).error = e ∧
    (GetStreams (fun _ => (dst, e)) ca so).error = e ∧
    (GetVideos (fun _ => (dv, e)) ca vo).error = e ∧
    (GetGames (fun _ => (dg, e)) ca go).error = e ∧
    (GetClipBySlug (fun _ => (dcl, e)) ca slug).error = e ∧
    (GetVideosByUser (fun _ => (dup, e)) ca u1 vo).error = e ∧
    (GetFollowersForUser (fun _ => (dfp, e)) ca u2 fo).error = e ∧
    (GetFollowersForChannel (fun _ => (dfp, e)) ca ⟨u2.ID⟩ fo).error = e ∧
    (GetModsForUser (fun _ => (some mp, e)) ca u2 mo).outcome
      = Except.ok (mp.Mods, e) ∧
    (GetVIPsForUser (fun _ => (some vp, e)) ca u2 vio).outcome
      = Except.ok (vp.VIPs, e) ∧
    GetCurrentUser (fun _ => (du, e)) ca
      = ⟨[], none, some GoError.errTokenNotSet⟩ ∧
    GetUsersByID (fun _ => (dsu, e)) ca l1
      = ⟨[], some [], some GoError.errTooManyArguments⟩ ∧
    GetUsersByLogin (fun _ => (dsu, e)) ca l1
      = ⟨[], some [], some GoError.errTooManyArguments⟩ ∧
    GetChannelsByID (fun _ => (dsc, e)) ca l1
      = ⟨[], some [], some GoError.errTooManyArguments⟩ ∧
    GetChannelsByName (fun _ => (dsc, e)) ca l1
      = ⟨[], some [], some GoError.errTooManyArguments⟩ ∧
    GetFollowersForUser (fun _ => (dfp, e)) ca u1 fo
      = ⟨[], none, some GoError.errInvalidArgument⟩ ∧
    GetFollowersForChannel (fun _ => (dfp, e)) ca ⟨u1.ID⟩ fo
      = ⟨[], none, some GoError.errInvalidArgument⟩ ∧
    (GetModsForUser (fun _ => (some mp, e)) ca u1 mo).calls = [] ∧
    (GetModsForUser (fun _ => (some mp, e)) ca u1 mo).outcome
      = Except.ok (none, some GoError.errInvalidArgument) ∧
    (GetVIPsForUser (fun _ => (some vp, e)) ca u1 vio).calls = [] ∧
    (GetVIPsForUser (fun _ => (some vp, e)) ca u1 vio).outcome
      = Except.ok (none, some GoError.errInvalidArgument) := by
  have hl2' : ¬ l2.length > 100 := Nat.not_lt.mpr hl2
  refine ⟨rfl, rfl, rfl, ?_, ?_, ?_, ?_, ?_, rfl, rfl, rfl, rfl, ?_, ?_, ?_,
    ?_, ?_, ?_, ?_, ?_, ?_, ?_, ?_, ?_, ?_, ?_, ?_, ?_⟩
  · simp [GetCurrentUser, hcb, CustomQuery]
  · simp [GetUsersByID, hl2', CustomQuery]
  · simp [GetUsersByLogin, hl2', CustomQuery]
  · simp [GetChannelsByID, hl2', CustomQuery]
  · simp [GetChannelsByName, hl2', CustomQuery]
  · simp only [GetVideosByUser, CustomQuery]
    try split <;> simp_all
  · simp only [GetFollowersForUser, CustomQuery, h2, if_false]
    try split <;> simp_all
  · simp only [GetFollowersForChannel, CustomQuery, h2, if_false]
    try split <;> simp_all
  · simp only [GetModsForUser, CustomQuery, h2, if_false]
  · simp only [GetVIPsForUser, CustomQuery, h2, if_false]
  · simp [GetCurrentUser, hca]
  · simp [GetUsersByID, hl1]
  · simp [GetUsersByLogin, hl1]
  · simp [GetChannelsByID, hl1]
  · simp [GetChannelsByName, hl1]
  · simp [GetFollowersForUser, h1]
  · simp [GetFollowersForChannel, h1]
  · simp [GetModsForUser, h1]
  · simp [GetModsForUser, h1]
  · simp [GetVIPsForUser, h1]
  · simp [GetVIPsForUser, h1]

/-- Concrete instance of `c8_error_propagation`: a representative transport
error is surfaced verbatim by `GetCurrentUser`, and a representative
validation error is immediate, at concrete inputs. -/
theorem c8_error_propagation_witness :
    (GetCurrentUser (fun _ => (none, some (GoError.other "boom")))
      ⟨"", "x"⟩).error = some (GoError.other "boom") ∧
    GetUsersByID (fun _ => (none, some (GoError.other "boom"))) ⟨"", ""⟩
      (List.replicate 101 "x")
      = ⟨[], some [], some GoError.errTooManyArguments⟩ :=
  ⟨(c8_error_propagation (fun _ => ((), none)) QueryName.streams [] (some (GoError.other "boom"))
      false none none none none none none none none none ⟨none⟩ ⟨none⟩
      ⟨"", ""⟩ ⟨"", "x"⟩ rfl (by decide) ⟨none⟩ ⟨some "1"⟩ (by decide)
      (by decide) (List.replicate 101 "x") [] (by simp) (by simp)
      "" "" ⟨1, "", ⟨0⟩⟩ ⟨1, ""⟩ ⟨1, "", ⟨0⟩⟩ ⟨1, ""⟩ ⟨1, ""⟩
      ⟨1, ""⟩).2.2.2.1,
   (c8_error_propagation (fun _ => ((), none)) QueryName.streams [] (some (GoError.other "boom"))
      false none none none none none none none none none ⟨none⟩ ⟨none⟩
      ⟨"", ""⟩ ⟨"", "x"⟩ rfl (by decide) ⟨none⟩ ⟨some "1"⟩ (by decide)
      (by decide) (List.replicate 101 "x") [] (by simp) (by simp)
      "" "" ⟨1, "", ⟨0⟩⟩ ⟨1, ""⟩ ⟨1, "", ⟨0⟩⟩ ⟨1, ""⟩ ⟨1, ""⟩
      ⟨1, ""⟩).2.2.2.2.2.2.2.2.2.2.2.2.2.2.2.2.2.2.1⟩

/-- C9: when a bulk-lookup operation rejects more than 100 identifiers, the
slice returned alongside `ErrTooManyArguments` is the empty non-nil slice
(`some []` in the `GoSlice` model), not the nil slice. -/
theorem c9_reject_slice_empty (t1 t2 : Transport (GoSlice User))
    (t3 t4 : Transport (GoSlice Channel)) (c : Client) (l : List String)
    (hl : l.length > 100) :
    (GetUsersByID t1 c l).value = some ([] : List User) ∧
    (GetUsersByLogin t2 c l).value = some ([] : List User) ∧
    (GetChannelsByID t3 c l).value = some ([] : List Channel) ∧
    (GetChannelsByName t4 c l).value = some ([] : List Channel) := by
  refine ⟨?_, ?_, ?_, ?_⟩ <;>
    simp [GetUsersByID, GetUsersByLogin, GetChannelsByID, GetChannelsByName,
      hl]

/-- Concrete instance of `c9_reject_slice_empty` at 101 identifiers. -/
theorem c9_reject_slice_empty_witness :
    (GetUsersByID (fun _ => (none, none)) ⟨"", ""⟩
      (List.replicate 101 "x")).value = some ([] : List User) ∧
    (GetUsersByLogin (fun _ => (none, none)) ⟨"", ""⟩
      (List.replicate 101 "x")).value = some ([] : List User) ∧
    (GetChannelsByID (fun _ => (none, none)) ⟨"", ""⟩
      (List.replicate 101 "x")).value = some ([] : List Channel) ∧
    (GetChannelsByName (fun _ => (none, none)) ⟨"", ""⟩
      (List.replicate 101 "x")).value = some ([] : List Channel) :=
  c9_reject_slice_empty (fun _ => (none, none)) (fun _ => (none, none))
    (fun _ => (none, none)) (fun _ => (none, none)) ⟨"", ""⟩
    (List.replicate 101 "x") (by simp)

/-- C10: `GetVideosByUser` and `GetVideosByChannel` perform no subject-ID
validation: even with a nil or empty-stringifying ID they build the
variable mapping (with the ID forwarded as is), invoke the transport once,
and return the transport's error rather than `ErrInvalidArgument`. -/
theorem c10_videos_no_id_guard (c : Client) (u : User) (ch : Channel)
    (vo : VideoQueryOpts) (d : Option UserVideosPayload) (e : Option GoError)
    (hu : idEmpty u.ID) (hch : idEmpty ch.ID) :
    (GetVideosByUser (fun _ => (d, e)) c u vo).calls
      = [⟨CallKind.query, QueryName.userVideos,
          [("id", GVal.gid u.ID), ("first", GVal.int (effFirst vo.First)),
           ("after", GVal.str vo.After)]⟩] ∧
    (GetVideosByUser (fun _ => (d, e)) c u vo).error = e ∧
    (GetVideosByChannel (fun _ => (d, e)) c ch vo).calls
      = [⟨CallKind.query, QueryName.userVideos,
          [("id", GVal.gid ch.ID), ("first", GVal.int (effFirst vo.First)),
           ("after", GVal.str vo.After)]⟩] ∧
    (GetVideosByChannel (fun _ => (d, e)) c ch vo).error = e := by
  refine ⟨?_, ?_, ?_, ?_⟩ <;>
    (simp only [GetVideosByChannel, GetVideosByUser, CustomQuery]
     split <;> simp [int32wrap_clamp])

/-- Concrete instance of `c10_videos_no_id_guard` at a nil subject ID. -/
theorem c10_videos_no_id_guard_witness :
    (GetVideosByUser (fun _ => (none, none)) ⟨"", ""⟩ ⟨none⟩ ⟨1, ""⟩).calls
      = [⟨CallKind.query, QueryName.userVideos,
          [("id", GVal.gid none), ("first", GVal.int (effFirst 1)),
           ("after", GVal.str "")]⟩] ∧
    (GetVideosByUser (fun _ => (none, none)) ⟨"", ""⟩ ⟨none⟩ ⟨1, ""⟩).error
      = none ∧
    (GetVideosByChannel (fun _ => (none, none)) ⟨"", ""⟩ ⟨none⟩ ⟨1, ""⟩).calls
      = [⟨CallKind.query, QueryName.userVideos,
          [("id", GVal.gid none), ("first", GVal.int (effFirst 1)),
           ("after", GVal.str "")]⟩] ∧
    (GetVideosByChannel (fun _ => (none, none)) ⟨"", ""⟩ ⟨none⟩ ⟨1, ""⟩).error
      = none :=
  c10_videos_no_id_guard ⟨"", ""⟩ ⟨none⟩ ⟨none⟩ ⟨1, ""⟩ none none
    (by decide) (by decide)

end GoTwitch
